import Mathlib

/-!
Verification development for the chat_reflection_loop backend.

The Python source under src/backend is shallowly embedded: pydantic models
become structures over ℚ (floats) and Nat (datetimes), fallible operations
return Option/Except, Firestore documents become typed records, and the
LLM/Firestore collaborators become explicit parameters.  Pydantic metadata
maps (Dict[str, Any] fields that no code path reads or writes other than
with their default {}) are omitted from the structures.
-/

/-- Timestamps stand in for Python datetime values (integral ticks). -/
abbrev Timestamp := Nat

/-- PatternContext from agents/models.py (metadata map omitted, see header). -/
structure PatternContext where
  session_id : String
  title : String
  summary : String
  timestamp : Timestamp
  excerpt : String
deriving DecidableEq

/-- Pattern.context is Union[PatternContext, List[str]] in agents/models.py. -/
inductive PatternContextData where
  | legacy (excerpts : List String)
  | structured (ctx : PatternContext)
deriving DecidableEq

/-- Pattern from agents/models.py.  The pydantic field constraint
`confidence: float = Field(ge=0.0, le=1.0)` is modelled by the separate
validated constructors below, used at the points where raw data enters. -/
structure Pattern where
  pattern : String
  category : String
  confidence : ℚ
  context : PatternContextData
  detected_at : Timestamp
  detection_method : String
  related_patterns : List String := []
  suggested_labels : List String := []
deriving DecidableEq

/-- PatternResult from agents/models.py (one entry of the LLM response). -/
structure PatternResult where
  pattern : String
  category : String
  confidence : ℚ
  context : List String
  related_patterns : List String := []
  suggested_labels : List String := []
deriving DecidableEq

/-- Pydantic construction of a PatternResult from raw response data:
`confidence` is declared `Field(ge=0.0, le=1.0)`, so out-of-range values make
validation fail (the whole response is rejected), they are not clamped. -/
def PatternResult.validate (pattern category : String) (confidence : ℚ)
    (context : List String) (related_patterns suggested_labels : List String) :
    Option PatternResult :=
  if 0 ≤ confidence ∧ confidence ≤ 1 then
    some ⟨pattern, category, confidence, context, related_patterns, suggested_labels⟩
  else none

/-- PatternResult.to_pattern from agents/models.py. -/
def PatternResult.to_pattern (now : Timestamp) (r : PatternResult) : Pattern :=
  { pattern := r.pattern
    category := r.category
    confidence := r.confidence
    context := .legacy r.context
    detected_at := now
    detection_method := "llm"
    related_patterns := r.related_patterns
    suggested_labels := r.suggested_labels }

/-- PatternAnalysisResponse from agents/models.py. -/
structure PatternAnalysisResponse where
  patterns : List PatternResult
deriving DecidableEq

/-- DynamicLabel from agents/models.py.  `text`, `confidence` and `context`
have no pydantic defaults and are therefore required at construction. -/
structure DynamicLabel where
  text : String
  confidence : ℚ
  context : List String
  first_seen : Timestamp
  last_seen : Timestamp
  occurrence_count : Nat := 1
  related_labels : List String := []
  source_patterns : List String := []
  clusters : List String := []
deriving DecidableEq

/-- LabelCluster from agents/models.py (center_point is a str → float map). -/
structure LabelCluster where
  cluster_id : String
  theme : String
  labels : List String
  strength : ℚ
  center_point : List (String × ℚ)
  radius : ℚ
  last_updated : Timestamp
deriving DecidableEq

/-- PatternAnalysisResult from agents/models.py. -/
structure PatternAnalysisResult where
  patterns : List Pattern
  labels : List DynamicLabel := []
  clusters : List LabelCluster := []
  timestamp : Timestamp := 0
  error_occurred : Bool := false
  error_message : Option String := none
deriving DecidableEq

/-- AgentInstruction from agents/models.py. -/
structure AgentInstruction where
  role : String
  instructions : String
  priority : Int
deriving DecidableEq

/-- DynamicCategory from agents/models.py (metadata omitted). -/
structure DynamicCategory where
  name : String
  description : String
  weight : ℚ := 1
  parent_category : Option String := none
  created_at : Timestamp := 0
  last_used : Timestamp := 0
  usage_count : Nat := 0
deriving DecidableEq

/-- UserProfile from agents/models.py (insights, tendencies and metadata are
never touched by the operations the claims concern and are omitted). -/
structure UserProfile where
  user_id : String
  patterns : List Pattern := []
  labels : List DynamicLabel := []
  clusters : List LabelCluster := []
  categories : List DynamicCategory := []
  base_instructions : List AgentInstruction := []
  personalized_instructions : Option String := none
  updated_at : Timestamp
deriving DecidableEq

/-! ### Python string primitives used by the analysis code -/

/-- Python whitespace characters recognised by str.split() and str.strip(). -/
def isPyWhitespace (c : Char) : Bool :=
  c == ' ' || c == '\t' || c == '\n' || c == '\x0d' || c == '\x0b' || c == '\x0c'

/-- Python str.lower(): character-wise lowercasing. -/
def pyLower (s : String) : String := (s.toList.map Char.toLower).asString

/-- Split a character list at every delimiter character, keeping empty
pieces, as Python re.split on a character class does. -/
def splitCharsAux (p : Char → Bool) : List Char → List Char → List (List Char)
  | [], acc => [acc.reverse]
  | c :: cs, acc =>
    if p c then acc.reverse :: splitCharsAux p cs []
    else splitCharsAux p cs (c :: acc)

/-- String-level wrapper of splitCharsAux. -/
def pySplit (p : Char → Bool) (s : String) : List String :=
  (splitCharsAux p s.toList []).map List.asString

/-- Python `' '.join(s.split())`: whitespace runs collapse to single spaces. -/
def normalizeWhitespace (s : String) : String :=
  String.intercalate " " ((pySplit isPyWhitespace s).filter (fun w => w ≠ ""))

/-- Containment of one character list in another. -/
def containsSublist (l pat : List Char) : Bool :=
  match l with
  | [] => pat.isEmpty
  | _ :: rest => pat.isPrefixOf l || containsSublist rest pat

/-- Python substring test `kw in s`. -/
def pyContains (s kw : String) : Bool :=
  containsSublist s.toList kw.toList

/-- Python str.strip(). -/
def pyStrip (s : String) : String :=
  ((s.toList.dropWhile isPyWhitespace).reverse.dropWhile isPyWhitespace).reverse.asString

/-- Python slice s[:n] (by code point, as Python indexes by character). -/
def pySlice (s : String) (n : Nat) : String := (s.toList.take n).asString

/-! ### pattern_analyzer.py (PatternAnalyzer) -/

/-- Modelled from the spec: `PatternCategory` is imported by
pattern_analyzer.py from agents/models.py but is defined nowhere under src/;
the spec describes the category set as a fixed enumerated set whose
learning-style members include SYSTEMATIC_LEARNING.  It is modelled as a
string-valued enumeration member, serialising to its name. -/
def PatternCategory.SYSTEMATIC_LEARNING : String := "SYSTEMATIC_LEARNING"

/-- One keyword template of _initialize_pattern_templates. -/
structure HeuristicTemplate where
  name : String
  keywords : List String
  confidence : ℚ
deriving DecidableEq

/-- PatternAnalyzer._initialize_pattern_templates: a single template under
PatternCategory.SYSTEMATIC_LEARNING. -/
def pattern_templates : List (String × List HeuristicTemplate) :=
  [(PatternCategory.SYSTEMATIC_LEARNING,
    [{ name := "体系的学習"
       keywords := ["順序", "体系", "ステップ", "順番", "段階"]
       confidence := 0.7 }])]

/-- Character class of re.split in _extract_context. -/
def isSentenceDelim (c : Char) : Bool :=
  c == '.' || c == '。' || c == '!' || c == '！' || c == '?' || c == '？' || c == '\n'

/-- PatternAnalyzer._extract_context: sentences containing a keyword
(case-insensitively), stripped, non-empty, first three. -/
def extract_context (content : String) (keywords : List String) : List String :=
  let sentences := pySplit isSentenceDelim content
  let hits := sentences.filter
    (fun sent => keywords.any (fun kw => pyContains (pyLower sent) (pyLower kw)))
  (((hits.map pyStrip).filter (fun c => c ≠ ""))).take 3

/-- Template scan of PatternAnalyzer._heuristic_analysis, before the
related-pattern cross-link step. -/
def heuristicDetect (now : Timestamp) (content : String) : List Pattern :=
  let normalized := normalizeWhitespace (pyLower content)
  (pattern_templates.map (fun ct =>
    ct.2.filterMap (fun tmpl =>
      if tmpl.keywords.any (fun kw => pyContains normalized (pyLower kw)) then
        some { pattern := tmpl.name
               category := ct.1
               confidence := tmpl.confidence
               context := .legacy (extract_context content tmpl.keywords)
               detected_at := now
               detection_method := "heuristic"
               related_patterns := [] }
      else none))).flatten

/-- PatternAnalyzer._heuristic_analysis: template scan, then (when more than
one pattern was found) related_patterns is set to all other pattern names. -/
def heuristic_analysis (now : Timestamp) (content : String) : List Pattern :=
  let patterns := heuristicDetect now content
  if patterns.length > 1 then
    patterns.map (fun p =>
      { p with related_patterns :=
          (patterns.filter (fun q => q.pattern ≠ p.pattern)).map (·.pattern) })
  else patterns

/-- PatternAnalyzer._minimum_patterns: the fixed fallback pattern. -/
def minimum_patterns (now : Timestamp) : List Pattern :=
  [{ pattern := "体系的学習"
     category := PatternCategory.SYSTEMATIC_LEARNING
     confidence := 0.6
     context := .legacy ["デフォルトパターン"]
     detected_at := now
     detection_method := "fallback"
     related_patterns := [] }]

/-- Pydantic construction `DynamicLabel(text=p.pattern)` exactly as written in
_create_result: `confidence` and `context` are required fields of DynamicLabel
(declared without defaults in agents/models.py), so this construction always
raises a ValidationError, modelled as the error value. -/
def dynamicLabelTextOnly (text : String) : Except String DynamicLabel :=
  .error ("validation error for DynamicLabel: fields confidence and context required, got only text=" ++ text)

/-- PatternAnalyzer._create_result: patterns are deliberately emptied
(`patterns=[]` with the comment パターン生成を無効化) and each pattern name is
turned into a DynamicLabel built from its text alone — a construction that
raises for every entry (see dynamicLabelTextOnly). -/
def create_result (now : Timestamp) (patterns : List Pattern) :
    Except String PatternAnalysisResult := do
  let labels ← patterns.mapM (fun p => dynamicLabelTextOnly p.pattern)
  return { patterns := [], labels := labels, clusters := [], timestamp := now }

/-- Fallback branch of PatternAnalyzer.analyze: heuristic analysis, then the
minimum pattern set, each wrapped in _create_result. -/
def analyzeFallbackPath (now : Timestamp) (content : String) :
    Except String PatternAnalysisResult :=
  let patterns := heuristic_analysis now content
  if patterns ≠ [] then create_result now patterns
  else create_result now (minimum_patterns now)

/-- PatternAnalyzer.analyze.  `llmResponse` is the value of _full_analysis
(an Optional: that helper catches its own exceptions and returns None).  The
try/except of analyze is the outer match: any exception inside the try block
produces the PatternAnalysisResult built in the except clause, whose patterns
are _minimum_patterns(). -/
def PatternAnalyzer.analyze (now : Timestamp)
    (llmResponse : Option PatternAnalysisResponse) (content : String) :
    PatternAnalysisResult :=
  let attempt : Except String PatternAnalysisResult :=
    match llmResponse with
    | some resp =>
      if resp.patterns ≠ [] then
        create_result now (resp.patterns.map (PatternResult.to_pattern now))
      else analyzeFallbackPath now content
    | none => analyzeFallbackPath now content
  match attempt with
  | .ok r => r
  | .error e =>
    { patterns := minimum_patterns now
      timestamp := now
      error_occurred := true
      error_message := some e }

/-- Dead code in pattern_analyzer.py: validate_patterns is defined after the
return statements inside analyze (lines 107-123), so it is never executed and
never registered as a result validator.  Its body would clamp confidence into
[0, 1] (after resetting a falsy 0.0 to 0.5) and default an empty context;
an empty patterns list would raise ModelRetry (modelled as none). -/
def validate_patterns (r : PatternAnalysisResponse) : Option PatternAnalysisResponse :=
  if r.patterns = [] then none
  else some { patterns := r.patterns.map (fun p =>
    let c0 : ℚ := if p.confidence = 0 then 0.5 else p.confidence
    { p with confidence := max 0 (min 1 c0)
             context := if p.context = [] then ["コンテキストなし"] else p.context }) }

/-! ### Theorems for C1 and C2 -/

/-- C1: if the LLM-backed extraction yields no patterns and the heuristic
keyword analysis also yields none, PatternAnalyzer.analyze(content) returns a
result whose patterns list is exactly the fixed fallback pattern — confidence
0.6 and detection_method "fallback" — and in particular non-empty.  (The
mechanism: _create_result raises while converting the fallback pattern to a
DynamicLabel, and the except clause of analyze returns _minimum_patterns().) -/
theorem C1_fallback_guarantee (now : Timestamp)
    (llmResponse : Option PatternAnalysisResponse) (content : String)
    (hllm : llmResponse = none ∨ ∃ r, llmResponse = some r ∧ r.patterns = [])
    (hheur : heuristic_analysis now content = []) :
    (PatternAnalyzer.analyze now llmResponse content).patterns = minimum_patterns now
    ∧ (PatternAnalyzer.analyze now llmResponse content).patterns ≠ []
    ∧ ∀ p ∈ (PatternAnalyzer.analyze now llmResponse content).patterns,
        p.confidence = 0.6 ∧ p.detection_method = "fallback" := by
  have hfb : analyzeFallbackPath now content
      = create_result now (minimum_patterns now) := by
    simp [analyzeFallbackPath, hheur]
  have hres : PatternAnalyzer.analyze now llmResponse content
      = { patterns := minimum_patterns now
          timestamp := now
          error_occurred := true
          error_message := some ("validation error for DynamicLabel: fields confidence and context required, got only text=" ++ "体系的学習") } := by
    rcases hllm with h | ⟨r, hr, hpat⟩
    · subst h
      simp [PatternAnalyzer.analyze, hfb, create_result, minimum_patterns,
        dynamicLabelTextOnly, List.mapM]
      rfl
    · subst hr
      simp [PatternAnalyzer.analyze, hpat, hfb, create_result, minimum_patterns,
        dynamicLabelTextOnly, List.mapM]
      rfl
  refine ⟨by rw [hres], by rw [hres]; simp [minimum_patterns], ?_⟩
  intro p hp
  rw [hres] at hp
  simp [minimum_patterns] at hp
  subst hp
  exact ⟨rfl, rfl⟩

/-- Witness for C1 at the concrete input content = "" with no LLM response. -/
theorem C1_fallback_guarantee_witness :
    (PatternAnalyzer.analyze 0 none "").patterns = minimum_patterns 0
    ∧ (PatternAnalyzer.analyze 0 none "").patterns ≠ []
    ∧ ∀ p ∈ (PatternAnalyzer.analyze 0 none "").patterns,
        p.confidence = 0.6 ∧ p.detection_method = "fallback" :=
  C1_fallback_guarantee 0 none "" (Or.inl rfl) (by decide)

/-- C2: the confidence-clamping claim fails on the code.  The clamping
validator is dead code (defined after the return statements of analyze and
never registered), so an upstream entry with confidence 1.5 is rejected by the
pydantic field validation (construction yields none) instead of being kept
with confidence clamped to 1.0 — which is what the dead validator body would
have produced. -/
theorem C2_clamp_is_dead_code :
    PatternResult.validate "p" "SYSTEMATIC_LEARNING" 1.5 ["ctx"] [] [] = none
    ∧ (validate_patterns
        { patterns := [{ pattern := "p", category := "SYSTEMATIC_LEARNING",
                         confidence := 1.5, context := ["ctx"] }] }).map
        (fun r => r.patterns.map (·.confidence)) = some [1] := by
  constructor
  · simp [PatternResult.validate]
    norm_num
  · simp [validate_patterns]
    norm_num

/-! ### profile_agent.py (ProfileAgent.analyze_reflection) -/

/-- Session information as returned by ProfileAgent._get_session_info on a
found document (title, created_at, reflection content). -/
structure SessionInfo where
  title : String
  created_at : Timestamp
  reflection : String
deriving DecidableEq

/-- ProfileAgent._get_session_info: the Firestore read may itself fail; the
helper catches every exception and returns None, and also returns None when
the document does not exist. -/
def get_session_info (fetch : Except String (Option SessionInfo)) : Option SessionInfo :=
  match fetch with
  | .ok (some info) => some info
  | .ok none => none
  | .error _ => none

/-- LastAnalysis from profile_agent.py. -/
structure LastAnalysis where
  timestamp : Timestamp
  content_hash : String
  result : PatternAnalysisResult
deriving DecidableEq

/-- The ProfileAgent._last_analysis dictionary (user_id → LastAnalysis),
modelled as an association list with dictionary lookup/assignment. -/
structure AgentState where
  last_analysis : List (String × LastAnalysis)
deriving DecidableEq

/-- Dictionary read self._last_analysis.get(user_id). -/
def AgentState.lookup (st : AgentState) (uid : String) : Option LastAnalysis :=
  (st.last_analysis.find? (fun e => e.1 == uid)).map (·.2)

/-- Dictionary assignment self._last_analysis[user_id] = la. -/
def AgentState.store (st : AgentState) (uid : String) (la : LastAnalysis) : AgentState :=
  ⟨(uid, la) :: st.last_analysis.filter (fun e => e.1 != uid)⟩

/-- External collaborators of analyze_reflection: the SHA-256 content hash
(an opaque string function), the chat_histories document read, the pattern
engine (analyze_pattern), and _update_profile_with_analysis, whose repository
writes may raise. -/
structure ProfileAgentDeps where
  hash : String → String
  sessionFetch : String → Except String (Option SessionInfo)
  engineRun : String → Except String PatternAnalysisResult
  updateRun : String → PatternAnalysisResult → Except String Unit

/-- Result of one analyze_reflection call: the returned value, the cache
state afterwards, and whether the engine / profile update were invoked. -/
structure RunOutcome where
  result : PatternAnalysisResult
  state : AgentState
  engineCalled : Bool
  updateCalled : Bool
deriving DecidableEq

/-- Conversion of one engine pattern inside analyze_reflection (lines
203-233): profile_agent.py references PatternContext without importing it
(the agents.models import list omits that name), so the construction raises
NameError for every pattern; the per-item except clause catches it and the
pattern is skipped. -/
def convertEnginePattern (_p : Pattern) : Except String Pattern :=
  .error "NameError: name PatternContext is not defined"

/-- The pattern loop of analyze_reflection: empty names are skipped before
the try block, and every conversion failure skips its item. -/
def buildPatterns (ps : List Pattern) : List Pattern :=
  ps.foldr (fun p acc =>
    if p.pattern = "" then acc
    else
      match convertEnginePattern p with
      | .ok q => q :: acc
      | .error _ => acc) []

/-- Pydantic construction DynamicLabel(text=..., confidence=..., context=...):
validation requires confidence in [0, 1]; remaining fields take their
defaults (first_seen/last_seen both now, occurrence_count 1). -/
def DynamicLabel.construct (now : Timestamp) (text : String) (confidence : ℚ)
    (context : List String) : Option DynamicLabel :=
  if 0 ≤ confidence ∧ confidence ≤ 1 then
    some { text := text, confidence := confidence, context := context,
           first_seen := now, last_seen := now }
  else none

/-- The label loop of analyze_reflection: empty texts are skipped, each label
is rebuilt with the content prefix as default context, and conversion
failures skip their item. -/
def buildLabels (now : Timestamp) (content : String) (ls : List DynamicLabel) :
    List DynamicLabel :=
  ls.foldr (fun l acc =>
    if l.text = "" then acc
    else
      match DynamicLabel.construct now l.text l.confidence [pySlice content 200] with
      | some dl => dl :: acc
      | none => acc) []

/-- Fixed message prefix of the profile-update except clause. -/
def updateErrorText (e : String) : String :=
  "プロファイルの更新中にエラーが発生しました: " ++ e

/-- The PatternAnalysisResult rebuilt by analyze_reflection from the engine
result (the pattern and label loops, clusters left for later). -/
def freshResult (now : Timestamp) (content : String)
    (analysis : PatternAnalysisResult) : PatternAnalysisResult :=
  { patterns := buildPatterns analysis.patterns
    labels := buildLabels now content analysis.labels
    clusters := []
    timestamp := now
    error_occurred := false
    error_message := none }

/-- Body of analyze_reflection after the empty guard and the cache check
missed: fetch session info, run the engine, rebuild patterns and labels,
update the profile, and store the cache entry only when the update
succeeded. -/
def runFreshAnalysis (deps : ProfileAgentDeps) (st : AgentState) (now : Timestamp)
    (user_id content : String) (session_id : Option String) (h : String) :
    RunOutcome :=
  let _session_info := session_id.bind (fun sid => get_session_info (deps.sessionFetch sid))
  match deps.engineRun content with
  | .error e =>
    { result := { patterns := [], timestamp := now, error_occurred := true,
                  error_message := some e }
      state := st, engineCalled := true, updateCalled := false }
  | .ok analysis =>
    if analysis.error_occurred then
      { result := analysis, state := st, engineCalled := true, updateCalled := false }
    else
      let newResult := freshResult now content analysis
      match deps.updateRun user_id newResult with
      | .ok _ =>
        { result := newResult
          state := st.store user_id { timestamp := now, content_hash := h, result := newResult }
          engineCalled := true, updateCalled := true }
      | .error e =>
        { result := { patterns := [], timestamp := now, error_occurred := true,
                      error_message := some (updateErrorText e) }
          state := st, engineCalled := true, updateCalled := true }

/-- ProfileAgent.analyze_reflection: empty guard, content hash, cache check,
then the fresh-analysis body.  Its outer try/except never lets an exception
escape; every internal failure is returned as an error result. -/
def analyze_reflection (deps : ProfileAgentDeps) (st : AgentState) (now : Timestamp)
    (user_id content : String) (session_id : Option String) : RunOutcome :=
  if pyStrip content = "" then
    { result := { patterns := [], timestamp := now, error_occurred := true,
                  error_message := some "空の内容です" }
      state := st, engineCalled := false, updateCalled := false }
  else
    let h := deps.hash content
    match st.lookup user_id with
    | some last =>
      if last.content_hash = h then
        { result := last.result, state := st, engineCalled := false, updateCalled := false }
      else runFreshAnalysis deps st now user_id content session_id h
    | none => runFreshAnalysis deps st now user_id content session_id h

/-! ### Theorems for C5, C6, C9, C10 -/

/-- Stripping an all-whitespace string gives the empty string. -/
theorem pyStrip_of_all_whitespace (s : String)
    (h : s.toList.all isPyWhitespace = true) : pyStrip s = "" := by
  unfold pyStrip
  have h1 : s.toList.dropWhile isPyWhitespace = [] := by
    rw [List.dropWhile_eq_nil_iff]
    intro x hx
    exact List.all_eq_true.mp h x hx
  rw [h1]
  rfl

/-- Dictionary lookup immediately after assignment finds the new entry. -/
theorem AgentState.lookup_store (st : AgentState) (uid : String) (la : LastAnalysis) :
    (st.store uid la).lookup uid = some la := by
  simp [AgentState.lookup, AgentState.store]

/-- C6: whitespace-only content short-circuits analyze_reflection to an
error result with the fixed message, no patterns and no labels, leaves the
cache untouched, and never invokes the pattern engine or the profile
update. -/
theorem C6_empty_content_guard (deps : ProfileAgentDeps) (st : AgentState)
    (now : Timestamp) (user_id content : String) (session_id : Option String)
    (h : content.toList.all isPyWhitespace = true) :
    analyze_reflection deps st now user_id content session_id =
      { result := { patterns := [], labels := [], clusters := [], timestamp := now,
                    error_occurred := true, error_message := some "空の内容です" }
        state := st, engineCalled := false, updateCalled := false } := by
  unfold analyze_reflection
  rw [pyStrip_of_all_whitespace content h]
  simp

/-- Example collaborator bundle for the witnesses below: identity hash, no
session document, an engine returning an empty successful result, and a
profile update that succeeds. -/
def exDeps : ProfileAgentDeps :=
  { hash := fun s => s
    sessionFetch := fun _ => .ok none
    engineRun := fun _ => .ok { patterns := [] }
    updateRun := fun _ _ => .ok () }

/-- Witness for C6 at content = "   " (three spaces). -/
theorem C6_empty_content_guard_witness :
    "   ".toList.all isPyWhitespace = true
    ∧ analyze_reflection exDeps ⟨[]⟩ 0 "u" "   " none =
      { result := { patterns := [], labels := [], clusters := [], timestamp := 0,
                    error_occurred := true, error_message := some "空の内容です" }
        state := ⟨[]⟩, engineCalled := false, updateCalled := false } :=
  ⟨by decide, C6_empty_content_guard exDeps ⟨[]⟩ 0 "u" "   " none (by decide)⟩

/-- C5: re-analysing byte-identical content returns the first call's result
from the cache.  Under a cache miss with a successful engine run and a
successful profile update, the first call invokes the engine and stores the
cache entry; the immediately following call with the same content hits the
cache (the stored hash equals the recomputed hash), returns the identical
result, leaves the state unchanged, and does not invoke the engine — so the
engine runs exactly once across the two calls. -/
theorem C5_cache_idempotence (deps : ProfileAgentDeps) (st : AgentState)
    (now1 now2 : Timestamp) (user_id content : String) (sid1 sid2 : Option String)
    (ar : PatternAnalysisResult)
    (hne : pyStrip content ≠ "")
    (hmiss : st.lookup user_id = none)
    (heng : deps.engineRun content = .ok ar)
    (hok : ar.error_occurred = false)
    (hupd : ∀ r, deps.updateRun user_id r = .ok ()) :
    (analyze_reflection deps st now1 user_id content sid1).engineCalled = true
    ∧ (analyze_reflection deps (analyze_reflection deps st now1 user_id content sid1).state
        now2 user_id content sid2).engineCalled = false
    ∧ (analyze_reflection deps (analyze_reflection deps st now1 user_id content sid1).state
        now2 user_id content sid2).result
      = (analyze_reflection deps st now1 user_id content sid1).result
    ∧ (analyze_reflection deps (analyze_reflection deps st now1 user_id content sid1).state
        now2 user_id content sid2).state
      = (analyze_reflection deps st now1 user_id content sid1).state := by
  have hrun1 : analyze_reflection deps st now1 user_id content sid1 =
      { result := freshResult now1 content ar
        state := st.store user_id
          { timestamp := now1, content_hash := deps.hash content,
            result := freshResult now1 content ar }
        engineCalled := true, updateCalled := true } := by
    unfold analyze_reflection
    simp [hne, hmiss]
    unfold runFreshAnalysis
    rw [heng]
    simp [hok, hupd]
  have hrun2 : analyze_reflection deps
      (analyze_reflection deps st now1 user_id content sid1).state
      now2 user_id content sid2 =
      { result := freshResult now1 content ar
        state := (analyze_reflection deps st now1 user_id content sid1).state
        engineCalled := false, updateCalled := false } := by
    rw [hrun1]
    unfold analyze_reflection
    simp [hne, AgentState.lookup_store]
  refine ⟨by rw [hrun1], by rw [hrun2], by rw [hrun2, hrun1], by rw [hrun2]⟩

/-- Witness for C5 with the example collaborators on content "hello". -/
theorem C5_cache_idempotence_witness :
    (analyze_reflection exDeps ⟨[]⟩ 0 "u" "hello" none).engineCalled = true
    ∧ (analyze_reflection exDeps (analyze_reflection exDeps ⟨[]⟩ 0 "u" "hello" none).state
        1 "u" "hello" none).engineCalled = false
    ∧ (analyze_reflection exDeps (analyze_reflection exDeps ⟨[]⟩ 0 "u" "hello" none).state
        1 "u" "hello" none).result
      = (analyze_reflection exDeps ⟨[]⟩ 0 "u" "hello" none).result
    ∧ (analyze_reflection exDeps (analyze_reflection exDeps ⟨[]⟩ 0 "u" "hello" none).state
        1 "u" "hello" none).state
      = (analyze_reflection exDeps ⟨[]⟩ 0 "u" "hello" none).state :=
  C5_cache_idempotence exDeps ⟨[]⟩ 0 1 "u" "hello" none none { patterns := [] }
    (by decide) rfl rfl rfl (fun _ => rfl)

/-- C9: analyze_reflection is total at its interface — it returns a plain
PatternAnalysisResult (the embedding's return type is not fallible), and
whenever an internal collaborator raises, the outer except clauses convert
the exception into an error result carrying its message: an engine exception
yields error_occurred with exactly that message, and a profile-update
exception yields error_occurred with the fixed prefix plus that message.
(The session-info lookup catches its own exceptions and returns None, as
get_session_info shows.) -/
theorem C9_total_at_interface (deps : ProfileAgentDeps) (st : AgentState)
    (now : Timestamp) (user_id content : String) (sid : Option String)
    (hne : pyStrip content ≠ "")
    (hmiss : st.lookup user_id = none) :
    (∀ e, deps.engineRun content = .error e →
      (analyze_reflection deps st now user_id content sid).result.error_occurred = true
      ∧ (analyze_reflection deps st now user_id content sid).result.error_message = some e)
    ∧ (∀ e ar, deps.engineRun content = .ok ar → ar.error_occurred = false →
        (∀ r, deps.updateRun user_id r = .error e) →
        (analyze_reflection deps st now user_id content sid).result.error_occurred = true
        ∧ (analyze_reflection deps st now user_id content sid).result.error_message
          = some (updateErrorText e)) := by
  constructor
  · intro e heng
    unfold analyze_reflection
    simp [hne, hmiss]
    unfold runFreshAnalysis
    rw [heng]
    simp
  · intro e ar heng hok hupd
    unfold analyze_reflection
    simp [hne, hmiss]
    unfold runFreshAnalysis
    rw [heng]
    simp [hok, hupd]

/-- Example collaborator bundle whose engine raises. -/
def exDepsEngineFail : ProfileAgentDeps :=
  { exDeps with engineRun := fun _ => .error "engine boom" }

/-- Witness for C9: with a raising engine, the returned result reports the
error and carries the exception message. -/
theorem C9_total_at_interface_witness :
    (analyze_reflection exDepsEngineFail ⟨[]⟩ 0 "u" "hello" none).result.error_occurred = true
    ∧ (analyze_reflection exDepsEngineFail ⟨[]⟩ 0 "u" "hello" none).result.error_message
      = some "engine boom" :=
  (C9_total_at_interface exDepsEngineFail ⟨[]⟩ 0 "u" "hello" none
    (by decide) rfl).1 "engine boom" rfl

/-- Helper for C10: if the fresh-analysis body changed the cache state, the
profile update succeeded for some analysis result. -/
theorem runFresh_state_change (deps : ProfileAgentDeps) (st : AgentState)
    (now : Timestamp) (user_id content : String) (sid : Option String) (h : String)
    (hst : (runFreshAnalysis deps st now user_id content sid h).state ≠ st) :
    ∃ r, deps.updateRun user_id r = .ok () := by
  unfold runFreshAnalysis at hst
  split at hst
  · simp at hst
  · split at hst
    · simp at hst
    · simp only [] at hst
      split at hst
      · rename_i val heq
        cases val
        exact ⟨_, heq⟩
      · simp at hst

/-- C10: the cache entry is written only after the profile update completes.
If _update_profile_with_analysis raises, analyze_reflection returns an error
result and the cache state is exactly what it was before the call; and
whenever a call changes the cache state at all, the profile update succeeded
for some analysis result. -/
theorem C10_cache_after_update (deps : ProfileAgentDeps) (st : AgentState)
    (now : Timestamp) (user_id content : String) (sid : Option String) :
    (∀ e ar, pyStrip content ≠ "" → st.lookup user_id = none →
      deps.engineRun content = .ok ar → ar.error_occurred = false →
      (∀ r, deps.updateRun user_id r = .error e) →
      (analyze_reflection deps st now user_id content sid).result.error_occurred = true
      ∧ (analyze_reflection deps st now user_id content sid).state = st)
    ∧ ((analyze_reflection deps st now user_id content sid).state ≠ st →
        ∃ r, deps.updateRun user_id r = .ok ()) := by
  constructor
  · intro e ar hne hmiss heng hok hupd
    unfold analyze_reflection
    simp [hne, hmiss]
    unfold runFreshAnalysis
    rw [heng]
    simp [hok, hupd]
  · intro hst
    unfold analyze_reflection at hst
    split at hst
    · simp at hst
    · split at hst
      · simp only [] at hst
        split at hst
        · simp at hst
        · exact runFresh_state_change _ _ _ _ _ _ _ hst
      · exact runFresh_state_change _ _ _ _ _ _ _ hst

/-- Example collaborator bundle whose profile update raises. -/
def exDepsUpdateFail : ProfileAgentDeps :=
  { exDeps with updateRun := fun _ _ => .error "write denied" }

/-- Witness for C10: with a raising profile update, the call reports an error
and leaves the (empty) cache unchanged. -/
theorem C10_cache_after_update_witness :
    (analyze_reflection exDepsUpdateFail ⟨[]⟩ 0 "u" "hello" none).result.error_occurred = true
    ∧ (analyze_reflection exDepsUpdateFail ⟨[]⟩ 0 "u" "hello" none).state = ⟨[]⟩ :=
  (C10_cache_after_update exDepsUpdateFail ⟨[]⟩ 0 "u" "hello" none).1
    "write denied" { patterns := [] } (by decide) rfl rfl rfl (fun _ => rfl)

/-! ### repositories/user_profile_repository.py -/

/-- UserPattern from user_profile_repository.py. -/
structure UserPattern where
  pattern : String
  category : String
  confidence : ℚ
  last_updated : Timestamp
  examples : List String
deriving DecidableEq

/-- One pattern entry of a stored profile document.  The transactional
add_pattern writes dicts with the eight keys below; the create branch goes
through the UserProfile model, which drops the last_updated/examples keys
(they are not Pattern fields), modelled by none. -/
structure StoredPattern where
  pattern : String
  category : String
  confidence : ℚ
  context : List String
  detected_at : Timestamp
  detection_method : String
  last_updated : Option Timestamp := none
  examples : Option (List String) := none
deriving DecidableEq

/-- A user_profiles document, as serialised by _to_dict(UserProfile). -/
structure ProfileDoc where
  user_id : String
  patterns : List StoredPattern := []
  labels : List DynamicLabel := []
  clusters : List LabelCluster := []
  categories : List DynamicCategory := []
  base_instructions : List AgentInstruction := []
  personalized_instructions : Option String := none
  updated_at : Timestamp
deriving DecidableEq

/-- The pattern_dict built inside add_pattern's transaction (context is
`pattern.examples or []`, which equals pattern.examples). -/
def pattern_dict (now : Timestamp) (p : UserPattern) : StoredPattern :=
  { pattern := p.pattern
    category := p.category
    confidence := p.confidence
    context := p.examples
    detected_at := now
    detection_method := "analysis"
    last_updated := some p.last_updated
    examples := some p.examples }

/-- The update loop of add_pattern's transaction: the first entry whose
'pattern' key equals the new pattern's name — the category is not compared —
is replaced by pattern_dict; otherwise the dict is appended at the end. -/
def addPatternLoop (pd : StoredPattern) : List StoredPattern → List StoredPattern
  | [] => [pd]
  | q :: rest => if q.pattern = pd.pattern then pd :: rest else q :: addPatternLoop pd rest

/-- UserProfileRepository.add_pattern: the transactional read-modify-write on
the profile document (the pattern_history side write carries no state the
claims concern).  A missing document is created with the single pattern; the
create branch passes the dict through the UserProfile model, dropping the
last_updated/examples keys. -/
def add_pattern (now : Timestamp) (user_id : String) (p : UserPattern)
    (doc : Option ProfileDoc) : ProfileDoc :=
  match doc with
  | none =>
    { user_id := user_id
      patterns := [{ pattern := p.pattern, category := p.category,
                     confidence := p.confidence, context := p.examples,
                     detected_at := now, detection_method := "analysis" }]
      updated_at := now }
  | some d =>
    { d with patterns := addPatternLoop (pattern_dict now p) d.patterns
             updated_at := now }

/-- The update loop of add_label's transaction, lines 221-233 of
user_profile_repository.py.  On a text match the stored entry is updated in
place (occurrence_count incremented, last_seen set to now, the new excerpts
appended to the context, confidence set to the max of old and new) — and
then `labels[i] = self._to_dict(label)` immediately overwrites the whole
entry with the new label's serialisation, discarding that update; the
`_updated` binding mirrors the dead store.  An unmatched label is appended
at the end. -/
def addLabelLoop (now : Timestamp) (label : DynamicLabel) :
    List DynamicLabel → List DynamicLabel
  | [] => [label]
  | l :: rest =>
    if l.text = label.text then
      let _updated : DynamicLabel :=
        { l with occurrence_count := l.occurrence_count + 1
                 last_seen := now
                 context := l.context ++ label.context
                 confidence := max l.confidence label.confidence }
      label :: rest
    else l :: addLabelLoop now label rest

/-- UserProfileRepository.add_label: the transactional read-modify-write. -/
def add_label (now : Timestamp) (user_id : String) (label : DynamicLabel)
    (doc : Option ProfileDoc) : ProfileDoc :=
  match doc with
  | none => { user_id := user_id, labels := [label], updated_at := now }
  | some d => { d with labels := addLabelLoop now label d.labels, updated_at := now }

/-- Normalisation of one stored pattern in get_profile: the .get defaults
(category 'behavioral', confidence 0.5, ...) fire only for missing dict keys,
which the typed documents always carry; the related_patterns and
suggested_labels keys are not copied, so they take the model defaults. -/
def normalize_stored_pattern (q : StoredPattern) : Pattern :=
  { pattern := q.pattern
    category := q.category
    confidence := q.confidence
    context := .legacy q.context
    detected_at := q.detected_at
    detection_method := q.detection_method }

/-- Pydantic validation run by UserProfile.model_validate over the
normalised document: the range constraints of Pattern, DynamicLabel,
LabelCluster and DynamicCategory.  A violation raises, and get_profile's
except clause returns None. -/
def docValid (d : ProfileDoc) : Bool :=
  d.patterns.all (fun q => decide (0 ≤ q.confidence ∧ q.confidence ≤ 1))
  && d.labels.all (fun l =>
      decide (0 ≤ l.confidence ∧ l.confidence ≤ 1) && decide (1 ≤ l.occurrence_count))
  && d.clusters.all (fun c =>
      decide (0 ≤ c.strength ∧ c.strength ≤ 1) && decide (0 ≤ c.radius))
  && d.categories.all (fun c => decide (0 ≤ c.weight ∧ c.weight ≤ 1))

/-- The UserProfile built from a normalised document (the user_id field is
taken from the call argument, as in line 90 of the source). -/
def profileOfDoc (user_id : String) (d : ProfileDoc) : UserProfile :=
  { user_id := user_id
    patterns := d.patterns.map normalize_stored_pattern
    labels := d.labels
    clusters := d.clusters
    categories := d.categories
    base_instructions := d.base_instructions
    personalized_instructions := d.personalized_instructions
    updated_at := d.updated_at }

/-- UserProfileRepository.get_profile: returns the profile (or None when
validation of an existing document fails) together with the document store
content for this user afterwards.  A missing document is created with every
list field empty — base_instructions included — and persisted. -/
def get_profile (now : Timestamp) (user_id : String) (store : Option ProfileDoc) :
    Option UserProfile × Option ProfileDoc :=
  match store with
  | none =>
    (some { user_id := user_id, updated_at := now },
     some { user_id := user_id, updated_at := now })
  | some d =>
    if docValid d then (some (profileOfDoc user_id d), some d)
    else (none, some d)

/-! ### Theorems for C3, C4, C8 -/

/-- C3: the label-merge claim is right and the code is wrong.  Merging
"#simple" with confidence 0.5 (first_seen 1) and then "#simple" with
confidence 0.8 (first_seen 2) into an empty profile leaves a single stored
label with occurrence_count 1 and first_seen 2 — the in-place update
computed on lines 224-227 is discarded when line 228 overwrites the entry
with the new label's dict — where the claim requires occurrence_count 2 and
the original first_seen 1. -/
theorem C3_label_merge_update_discarded :
    ((add_label 2 "u"
        { text := "#simple", confidence := 0.8, context := ["c2"],
          first_seen := 2, last_seen := 2 }
        (some (add_label 1 "u"
          { text := "#simple", confidence := 0.5, context := ["c1"],
            first_seen := 1, last_seen := 1 }
          none))).labels.map
      (fun l => (l.occurrence_count, l.confidence, l.first_seen)))
    = [(1, 0.8, 2)]
    ∧ ∀ l ∈ (add_label 2 "u"
        { text := "#simple", confidence := 0.8, context := ["c2"],
          first_seen := 2, last_seen := 2 }
        (some (add_label 1 "u"
          { text := "#simple", confidence := 0.5, context := ["c1"],
            first_seen := 1, last_seen := 1 }
          none))).labels, l.occurrence_count ≠ 2 :=
  ⟨rfl, by decide⟩

/-- C4 counterexample: the upsert is not keyed by name+category.  A profile
holding the pattern ("P", "C", 0.4) merged with a new UserPattern ("P", "D",
0.9) — a name+category pair that is not present — does not get the new
pattern appended: the existing entry is replaced because only the name is
compared, leaving a single pattern with category "D" and no entry with
category "C". -/
theorem C4_upsert_ignores_category :
    ((add_pattern 1 "u"
        { pattern := "P", category := "D", confidence := 0.9,
          last_updated := 1, examples := [] }
        (some { user_id := "u"
                patterns := [{ pattern := "P", category := "C", confidence := 0.4,
                               context := [], detected_at := 0,
                               detection_method := "analysis" }]
                updated_at := 0 })).patterns.map
      (fun q => (q.pattern, q.category, q.confidence)))
    = [("P", "D", 0.9)] :=
  rfl

/-- Filtering a list of stored patterns by a name that occurs in none of
them gives the empty list. -/
theorem filter_pattern_name_nil (l : List StoredPattern) (s : String)
    (h : s ∉ l.map StoredPattern.pattern) :
    l.filter (fun q => q.pattern == s) = [] := by
  rw [List.filter_eq_nil_iff]
  intro q hq hqs
  exact h (List.mem_map.mpr ⟨q, hq, (eq_of_beq hqs).symm ▸ rfl⟩)

/-- The add_pattern loop appends when the name is absent. -/
theorem addPatternLoop_of_not_mem (pd : StoredPattern) (l : List StoredPattern)
    (h : pd.pattern ∉ l.map StoredPattern.pattern) :
    addPatternLoop pd l = l ++ [pd] := by
  induction l with
  | nil => rfl
  | cons q rest ih =>
    rw [List.map_cons, List.mem_cons, not_or] at h
    simp only [addPatternLoop]
    rw [if_neg (fun hq => h.1 hq.symm), ih h.2]
    rfl

/-- The add_pattern loop replaces the unique entry carrying the name. -/
theorem addPatternLoop_of_count_one (pd : StoredPattern) (l : List StoredPattern)
    (h : (l.map StoredPattern.pattern).count pd.pattern = 1) :
    (addPatternLoop pd l).filter (fun q => q.pattern == pd.pattern) = [pd]
    ∧ (addPatternLoop pd l).length = l.length := by
  induction l with
  | nil => simp at h
  | cons q rest ih =>
    rw [List.map_cons, List.count_cons] at h
    by_cases hq : q.pattern = pd.pattern
    · have hone : (if (q.pattern == pd.pattern) = true then 1 else 0) = 1 := by
        simp [hq]
      rw [hone] at h
      have hrest : (rest.map StoredPattern.pattern).count pd.pattern = 0 := by omega
      have hnot : pd.pattern ∉ rest.map StoredPattern.pattern :=
        List.count_eq_zero.mp hrest
      constructor
      · simp only [addPatternLoop, if_pos hq, List.filter_cons]
        simp [filter_pattern_name_nil rest pd.pattern hnot]
      · simp [addPatternLoop, if_pos hq]
    · have hzero : (if (q.pattern == pd.pattern) = true then 1 else 0) = 0 := by
        simp [hq]
      rw [hzero] at h
      have h' : (rest.map StoredPattern.pattern).count pd.pattern = 1 := by omega
      obtain ⟨h1, h2⟩ := ih h'
      constructor
      · simp only [addPatternLoop, if_neg hq, List.filter_cons]
        have hfq : (q.pattern == pd.pattern) = false := by
          simp [hq]
        simp [hfq, h1]
      · simp [addPatternLoop, if_neg hq, h2]

/-- C4 amended: add_pattern upserts by pattern name only.  If the name is
absent from the stored patterns, the new pattern_dict is appended; if the
name occurs exactly once (as in the spec's "P"/"C" 0.4 scenario), the result
holds exactly one entry with that name — the new pattern_dict, carrying the
new confidence — and the list length is unchanged (replace, not
duplicate). -/
theorem C4_upsert_by_name (now : Timestamp) (uid : String) (p : UserPattern)
    (d : ProfileDoc) :
    (p.pattern ∉ d.patterns.map StoredPattern.pattern →
      (add_pattern now uid p (some d)).patterns = d.patterns ++ [pattern_dict now p])
    ∧ ((d.patterns.map StoredPattern.pattern).count p.pattern = 1 →
      (add_pattern now uid p (some d)).patterns.filter
          (fun q => q.pattern == p.pattern) = [pattern_dict now p]
      ∧ (add_pattern now uid p (some d)).patterns.length = d.patterns.length) := by
  constructor
  · intro h
    simp only [add_pattern]
    exact addPatternLoop_of_not_mem (pattern_dict now p) d.patterns h
  · intro h
    simp only [add_pattern]
    exact addPatternLoop_of_count_one (pattern_dict now p) d.patterns h

/-- Witness for C4 amended at the spec scenario: pattern "P"/"C" confidence
0.4 stored, "P"/"C" confidence 0.9 merged — exactly one "P" remains, with
confidence 0.9. -/
theorem C4_upsert_by_name_witness :
    (add_pattern 1 "u"
        { pattern := "P", category := "C", confidence := 0.9,
          last_updated := 1, examples := [] }
        (some { user_id := "u"
                patterns := [{ pattern := "P", category := "C", confidence := 0.4,
                               context := [], detected_at := 0,
                               detection_method := "analysis" }]
                updated_at := 0 })).patterns.filter
        (fun q => q.pattern == "P")
      = [pattern_dict 1 { pattern := "P", category := "C", confidence := 0.9,
                          last_updated := 1, examples := [] }]
    ∧ (add_pattern 1 "u"
        { pattern := "P", category := "C", confidence := 0.9,
          last_updated := 1, examples := [] }
        (some { user_id := "u"
                patterns := [{ pattern := "P", category := "C", confidence := 0.4,
                               context := [], detected_at := 0,
                               detection_method := "analysis" }]
                updated_at := 0 })).patterns.length = 1 :=
  (C4_upsert_by_name 1 "u"
    { pattern := "P", category := "C", confidence := 0.9,
      last_updated := 1, examples := [] }
    { user_id := "u"
      patterns := [{ pattern := "P", category := "C", confidence := 0.4,
                     context := [], detected_at := 0,
                     detection_method := "analysis" }]
      updated_at := 0 }).2 (by decide)

/-- C8 counterexample: the profile created by get_profile for an absent user
carries an empty base_instructions list — no built-in per-role instruction
data is seeded, in the returned profile or in the persisted document. -/
theorem C8_no_default_instructions :
    ((get_profile 0 "u" none).1.map UserProfile.base_instructions) = some []
    ∧ ((get_profile 0 "u" none).2.map ProfileDoc.base_instructions) = some [] := by
  decide

/-- C8 amended: get_profile has get-or-create semantics.  For an absent
document it returns and persists a fresh profile for that user_id whose
patterns, labels, clusters, categories and base_instructions are all empty
(no default seeding); a subsequent read for the same user returns that one
profile again and does not write, so exactly one profile per user exists. -/
theorem C8_get_or_create (uid : String) (now now2 : Timestamp) :
    (get_profile now uid none).1 = some { user_id := uid, updated_at := now }
    ∧ (get_profile now uid none).2 = some { user_id := uid, updated_at := now }
    ∧ (get_profile now2 uid (get_profile now uid none).2).2
      = (get_profile now uid none).2
    ∧ (get_profile now2 uid (get_profile now uid none).2).1
      = some { user_id := uid, updated_at := now } :=
  ⟨rfl, rfl, rfl, rfl⟩

/-! ### pattern_analysis_engine.py (PatternAnalysisEngine._cluster_labels) -/

/-- DBSCAN eps-neighbourhood over the scalar label vectors: every vector has
length 1 (np.random.rand(1) per label), so the Euclidean distance is the
absolute difference; points at distance up to eps = 0.5 are neighbours. -/
def epsNeighbor (vs : List ℚ) (i j : Nat) : Bool :=
  decide (|vs.getD i 0 - vs.getD j 0| ≤ 1/2)

/-- One step of transitive closure over the neighbourhood graph. -/
def reachExtend (n : Nat) (adj : Nat → Nat → Bool) (r : Nat → Nat → Bool) :
    Nat → Nat → Bool :=
  fun i j => r i j || (List.range n).any (fun k => r i k && adj k j)

/-- Reachability in at most n steps through the neighbourhood graph.  With
min_samples = 1 every point is a core point, so DBSCAN's clusters are exactly
the connected components of the eps-neighbourhood graph. -/
def reachability (n : Nat) (adj : Nat → Nat → Bool) : Nat → Nat → Bool :=
  (reachExtend n adj)^[n] (fun i j => i == j)

/-- The cluster of point i, named by a canonical representative (the first
index reaching it).  sklearn numbers clusters by scan order instead; the two
labellings group the points identically, and the grouping is all the code
below consumes. -/
def clusterKey (vs : List ℚ) (i : Nat) : Nat :=
  ((List.range vs.length).filter
    (fun j => reachability vs.length (epsNeighbor vs) j i)).headD i

/-- First-occurrence deduplication: the key order of a Python dict built by
insertion (defaultdict grouping preserves first-occurrence key order). -/
def firstOccur {α : Type} [DecidableEq α] : List α → List α
  | [] => []
  | a :: rest => a :: firstOccur (rest.filter (fun b => !(b == a)))
termination_by l => l.length
decreasing_by
  simp only [List.length_cons]
  exact Nat.lt_succ_of_le (List.length_filter_le _ _)

/-- The defaultdict grouping of _cluster_labels: the dict items (label text,
scalar vector) are zipped with their cluster labels, grouped by cluster in
first-occurrence order, each group keeping its items in order. -/
def dbscanGroups (pts : List (String × ℚ)) :
    List (Nat × List (Nat × String × ℚ)) :=
  let vs := pts.map (·.2)
  let ipts := pts.enum
  (firstOccur (ipts.map (fun e => clusterKey vs e.1))).map
    (fun c => (c, ipts.filter (fun e => clusterKey vs e.1 == c)))

/-- Python np.mean over a list of scalars. -/
def meanQ (xs : List ℚ) : ℚ := xs.sum / xs.length

/-- Python max(abs(center - v) for v in xs): on the non-empty lists of
non-negative values it is applied to, the fold with base 0 agrees with the
Python max. -/
def maxAbsDev (center : ℚ) (xs : List ℚ) : ℚ :=
  (xs.map (fun v => |center - v|)).foldr max 0

/-- Python label.replace("#", ""). -/
def removeHashMarks (s : String) : String :=
  (s.toList.filter (fun c => !(c == '#'))).asString

/-- The word list of _generate_cluster_theme: every underscore-delimited
token of every member label text, hash marks removed. -/
def clusterWords (labels : List String) : List String :=
  labels.flatMap (fun l => pySplit (fun c => c == '_') (removeHashMarks l))

/-- Python max(word_counts.items(), key=count)[0]: the first word, in
first-occurrence (dict insertion) order, with maximal count. -/
def mostCommonWord (ws : List String) : String :=
  match firstOccur ws with
  | [] => ""
  | w :: rest => rest.foldl (fun best x => if ws.count x > ws.count best then x else best) w

/-- PatternAnalysisEngine._generate_cluster_theme. -/
def generate_cluster_theme (labels : List String) : String :=
  let words := clusterWords labels
  if words = [] then "未分類クラスター"
  else "#" ++ mostCommonWord words ++ "関連"

/-- PatternAnalysisEngine._cluster_labels: fewer than two labels yield no
clusters; otherwise the points are grouped by DBSCAN (eps = 0.5,
min_samples = 1, Euclidean metric over the scalar vectors) and each group
becomes one LabelCluster.  The per-cluster try/except of the source never
fires: each group is non-empty, strength 1.0 and the non-negative radius
always pass validation, and the theme computation is total. -/
def cluster_labels (now : Timestamp) (pts : List (String × ℚ)) : List LabelCluster :=
  if pts.length < 2 then []
  else
    (dbscanGroups pts).map (fun g =>
      let memberTexts := g.2.map (fun e => e.2.1)
      let memberVecs := g.2.map (fun e => e.2.2)
      let center := meanQ memberVecs
      { cluster_id := "cluster_" ++ toString g.1
        theme := generate_cluster_theme memberTexts
        labels := memberTexts
        strength := 1
        center_point := [("x", center), ("y", 0), ("z", 0)]
        radius := if memberVecs.length > 1 then maxAbsDev center memberVecs else 0.1
        last_updated := now })

/-! ### Theorems for C7 -/

/-- Every element of firstOccur l comes from l. -/
theorem firstOccur_subset {α : Type} [DecidableEq α] :
    ∀ (l : List α), ∀ x ∈ firstOccur l, x ∈ l
  | [] => by simp [firstOccur]
  | a :: rest => by
    intro x hx
    rw [firstOccur] at hx
    rcases List.mem_cons.mp hx with h | h
    · exact h ▸ List.mem_cons_self a rest
    · exact List.mem_cons_of_mem a
        (List.mem_of_mem_filter (firstOccur_subset _ x h))
termination_by l => l.length
decreasing_by
  simp only [List.length_cons]
  exact Nat.lt_succ_of_le (List.length_filter_le _ _)

/-- flatMap only depends on the function's values on the list's members. -/
theorem flatMap_congr_mem {α β : Type} {l : List α} {f g : α → List β}
    (h : ∀ a ∈ l, f a = g a) : l.flatMap f = l.flatMap g := by
  induction l with
  | nil => rfl
  | cons a rest ih =>
    rw [List.flatMap_cons, List.flatMap_cons, h a (List.mem_cons_self a rest),
      ih (fun x hx => h x (List.mem_cons_of_mem a hx))]

/-- Grouping a list by the values of a key function and concatenating the
groups in first-occurrence key order permutes the list: every element lands
in exactly one group. -/
theorem groupByKeyPerm {α β : Type} [DecidableEq β] (key : α → β) :
    ∀ (l : List α),
      ((firstOccur (l.map key)).flatMap
        (fun c => l.filter (fun x => key x == c))).Perm l
  | [] => by simp [firstOccur]
  | a :: rest => by
    have hmap : (rest.map key).filter (fun b => !(b == key a))
        = (rest.filter (fun x => !(key x == key a))).map key := by
      rw [List.filter_map]
      rfl
    rw [List.map_cons, firstOccur, hmap, List.flatMap_cons]
    have hhead : (a :: rest).filter (fun x => key x == key a)
        = a :: rest.filter (fun x => key x == key a) :=
      List.filter_cons_of_pos (by simp)
    have htail : (firstOccur ((rest.filter (fun x => !(key x == key a))).map key)).flatMap
          (fun c => (a :: rest).filter (fun x => key x == c))
        = (firstOccur ((rest.filter (fun x => !(key x == key a))).map key)).flatMap
          (fun c => (rest.filter (fun x => !(key x == key a))).filter
            (fun x => key x == c)) := by
      apply flatMap_congr_mem
      intro c hc
      have hc' : c ∈ (rest.filter (fun x => !(key x == key a))).map key :=
        firstOccur_subset _ c hc
      obtain ⟨x, hxmem, hxkey⟩ := List.mem_map.mp hc'
      have hxne : ¬ key x = key a := by
        have hb := (List.mem_filter.mp hxmem).2
        simpa using hb
      have hcne : c ≠ key a := by
        intro hce
        rw [← hxkey] at hce
        exact hxne hce
      have hstep1 : (a :: rest).filter (fun x => key x == c)
          = rest.filter (fun x => key x == c) := by
        apply List.filter_cons_of_neg
        simp
        exact fun hke => hcne hke.symm
      rw [hstep1, List.filter_filter]
      apply List.filter_congr
      intro y hy
      by_cases hyc : key y = c
      · have h1 : (key y == c) = true := by simp [hyc]
        have h2 : (key y == key a) = false := by
          simp
          rw [hyc]
          exact hcne
        simp [h1, h2]
      · have h1 : (key y == c) = false := by simp [hyc]
        simp [h1]
    rw [hhead, htail, List.cons_append]
    apply List.Perm.cons
    exact List.Perm.trans
      (List.Perm.append_left _
        (groupByKeyPerm key (rest.filter (fun x => !(key x == key a)))))
      (List.filter_append_perm (fun x => key x == key a) rest)
termination_by l => l.length
decreasing_by
  simp only [List.length_cons]
  exact Nat.lt_succ_of_le (List.length_filter_le _ _)

/-- Projecting the payload of an enumerated pair list. -/
theorem enumFrom_map_proj {γ δ : Type} (l : List (γ × δ)) :
    ∀ i, ((l.enumFrom i).map (fun e => e.2.1)) = l.map (fun e => e.1) := by
  induction l with
  | nil => intro i; rfl
  | cons a rest ih => intro i; simp only [List.enumFrom_cons, List.map_cons, ih]

/-- C7: clustering zero or one vectorized label returns the empty list;
clustering two or more returns a non-empty cluster list whose member labels,
over all clusters, are a permutation of the input label texts — every input
label appears in exactly one cluster, none dropped (min_samples = 1 leaves
no noise) and none duplicated. -/
theorem C7_cluster_partition (now : Timestamp) (pts : List (String × ℚ)) :
    (pts.length < 2 → cluster_labels now pts = [])
    ∧ (2 ≤ pts.length →
        cluster_labels now pts ≠ []
        ∧ ((cluster_labels now pts).flatMap (fun c => c.labels)).Perm
            (pts.map (fun e => e.1))) := by
  constructor
  · intro h
    simp [cluster_labels, h]
  · intro h
    have hnot : ¬ pts.length < 2 := by omega
    constructor
    · have h1 : pts ≠ [] := by
        intro he
        rw [he] at h
        simp at h
      obtain ⟨p, rest, rfl⟩ := List.exists_cons_of_ne_nil h1
      simp only [cluster_labels, if_neg hnot]
      simp [dbscanGroups, List.enum, firstOccur]
    · simp only [cluster_labels, if_neg hnot]
      rw [List.flatMap_map]
      show ((dbscanGroups pts).flatMap
          (fun g => g.2.map (fun e => e.2.1))).Perm (pts.map (fun e => e.1))
      simp only [dbscanGroups]
      rw [List.flatMap_map]
      show ((firstOccur (pts.enum.map (fun e => clusterKey (pts.map (·.2)) e.1))).flatMap
          (fun c => (pts.enum.filter
            (fun e => clusterKey (pts.map (·.2)) e.1 == c)).map
              (fun e => e.2.1))).Perm (pts.map (fun e => e.1))
      rw [← List.map_flatMap]
      have hp := List.Perm.map (fun (e : Nat × String × ℚ) => e.2.1)
        (groupByKeyPerm (fun (e : Nat × String × ℚ) => clusterKey (pts.map (·.2)) e.1)
          pts.enum)
      have hm : pts.enum.map (fun e => e.2.1) = pts.map (fun e => e.1) :=
        enumFrom_map_proj pts 0
      rw [hm] at hp
      exact hp

/-- Witness for C7 on the two-point input ("#a_b", 0) and ("#a_c", 1/4). -/
theorem C7_cluster_partition_witness :
    cluster_labels 0 [("#a_b", 0), ("#a_c", 1/4)] ≠ []
    ∧ ((cluster_labels 0 [("#a_b", 0), ("#a_c", 1/4)]).flatMap
        (fun c => c.labels)).Perm
        ([("#a_b", (0 : ℚ)), ("#a_c", 1/4)].map (fun e => e.1)) :=
  (C7_cluster_partition 0 [("#a_b", 0), ("#a_c", 1/4)]).2 (by decide)
